import Mathlib

/-!
Verification of the Smart Health Reminder rule engine (`ai_engine.py`,
`database.py`).  The Python functions are shallowly embedded as executable
Lean definitions: machine integers become `Int`/`Nat`, floats become `Rat`,
Python strings become `String` (operated on through their `List Char` data so
that the kernel can evaluate them), exceptions become `Option`, and database
side effects are made explicit (inputs are the rows the function reads,
outputs include the rows the function writes).
-/

/-! ### Generic string helpers (models of Python string primitives) -/

/-- Lexicographic `≤` on character lists by Unicode code point; model of the
string comparison used by Python `sorted` on `str` keys. -/
def charListLe : List Char → List Char → Bool
  | [], _ => true
  | _ :: _, [] => false
  | a :: as, b :: bs => if a = b then charListLe as bs else decide (a < b)

/-- Model of Python string `<=` (code-point lexicographic). -/
def strLe (a b : String) : Bool := charListLe a.data b.data

/-- Whether `needle` occurs as a contiguous substring of the second argument;
model of the Python `in` operator on strings. -/
def listContains (needle : List Char) : List Char → Bool
  | [] => needle.isEmpty
  | c :: rest => needle.isPrefixOf (c :: rest) || listContains needle rest

/-- Model of Python `needle in hay` for strings. -/
def pyIn (needle hay : String) : Bool := listContains needle.data hay.data

/-- Model of Python `str.lower` (ASCII letters; the catalog keys and keywords
in the source are all ASCII). -/
def pyLower (s : String) : String := String.mk (s.data.map Char.toLower)

/-- Decimal value of a digit string. -/
def digitsToNat (ds : List Char) : Nat :=
  ds.foldl (fun n c => 10 * n + (c.toNat - '0'.toNat)) 0

/-- Model of Python `int(s)` on an optionally signed decimal string, returning
`none` where `int` raises `ValueError`.  (Exotic accepted forms such as
surrounding whitespace or underscores are not modelled; the stored time
fields the code parses are plain digit strings.) -/
def pyInt? (s : String) : Option Int :=
  match s.data with
  | [] => none
  | '-' :: ds =>
      if ds ≠ [] ∧ ds.all Char.isDigit then some (-(digitsToNat ds : Int)) else none
  | '+' :: ds =>
      if ds ≠ [] ∧ ds.all Char.isDigit then some ((digitsToNat ds : Int)) else none
  | ds =>
      if ds.all Char.isDigit then some ((digitsToNat ds : Int)) else none

/-- Split a character list at every occurrence of `sep`; model of Python
`str.split(sep)` (keeps empty pieces, like Python). -/
def splitOnChar (sep : Char) : List Char → List (List Char)
  | [] => [[]]
  | c :: rest =>
      match splitOnChar sep rest with
      | [] => [[c]]
      | g :: gs => if c = sep then [] :: g :: gs else (c :: g) :: gs

/-- Model of `h, m = map(int, s.split(":"))`: succeeds only when the split
yields exactly two `int`-parseable pieces (otherwise Python raises
`ValueError`). -/
def splitHM? (s : String) : Option (Int × Int) :=
  match splitOnChar ':' s.data with
  | [a, b] => do
      let h ← pyInt? (String.mk a)
      let m ← pyInt? (String.mk b)
      some (h, m)
  | _ => none

/-- Model of parsing a wall-clock field and feeding it to
`datetime.replace(hour=h, minute=m)`: `replace` raises `ValueError` unless
`0 ≤ h ≤ 23` and `0 ≤ m ≤ 59`. -/
def parseClock? (s : String) : Option (Nat × Nat) := do
  let (h, m) ← splitHM? s
  if 0 ≤ h ∧ h ≤ 23 ∧ 0 ≤ m ∧ m ≤ 59 then some (h.toNat, m.toNat) else none

/-- Two-digit zero padding of a natural number; model of `f"{n:02d}"` and of
`strftime` field formatting for nonnegative values. -/
def fmt2 (n : Nat) : String := if n < 10 then "0" ++ toString n else toString n

/-- Model of `f"{z:02d}"` on a Python int that may be negative: the pad width
counts the sign, so every negative value prints as `-` followed by its
digits. -/
def pyFmt2 (z : Int) : String :=
  if z < 0 then "-" ++ toString z.natAbs else fmt2 z.toNat

/-! ### Adaptive rescheduler (`run_adaptive_learning`, ai_engine.py 308-333) -/

/-- One row of the `reminders` table as read by `run_adaptive_learning`. -/
structure Reminder where
  id : Int
  title : String
  scheduled : String
deriving DecidableEq, Repr

/-- One suggestion dict produced by `run_adaptive_learning`. -/
structure Suggestion where
  reminder_id : Int
  title : String
  current_time : String
  suggested_time : String
  reason : String
  action : String
deriving DecidableEq, Repr

/-- The `+30`-minute shift of `run_adaptive_learning`: `new_m = m + 30`,
`new_h = h + new_m // 60`, `new_m %= 60`, formatted `f"{new_h:02d}:{new_m:02d}"`.
Python `//` and `%` are floor division and floor modulus; note that the hour
is not reduced modulo 24. -/
def addThirty (h m : Int) : String :=
  let new_m := m + 30
  let new_h := h + new_m.fdiv 60
  pyFmt2 new_h ++ ":" ++ pyFmt2 (new_m.fmod 60)

/-- The `try` block body: parse `scheduled`, shift by 30 minutes; `none`
models the caught exception (malformed time string). -/
def shiftTime? (s : String) : Option String :=
  (splitHM? s).map (fun p => addThirty p.1 p.2)

/-- Model of `run_adaptive_learning(user_id)`.  `skipped` gives, for a
reminder id, the value of `get_skipped_count(user_id, rid, days=7)` (a SQL
`COUNT(*)`, hence a natural number). -/
def run_adaptive_learning (reminders : List Reminder) (skipped : Int → Nat) :
    List Suggestion :=
  reminders.flatMap (fun r =>
    if 3 ≤ skipped r.id then
      match shiftTime? r.scheduled with
      | some t =>
          [{ reminder_id := r.id
             title := r.title
             current_time := r.scheduled
             suggested_time := t
             reason := "Skipped " ++ toString (skipped r.id) ++ " times in last 7 days"
             action := "reschedule" }]
      | none => []
    else [])

/-! ### Rule catalog and templates (ai_engine.py 13-103) -/

/-- One value of `CONDITION_RULES` (ai_engine.py 13-62). -/
structure RuleSet where
  exercise : List String
  diet : List String
  alerts : List String
  priority : String
deriving DecidableEq, Repr

/-- `CONDITION_RULES`, as an association list in declaration order (Python
dicts iterate in insertion order). -/
def CONDITION_RULES : List (String × RuleSet) :=
  [("diabetes",
    { exercise := ["30-min brisk walking", "Light yoga", "Post-meal 10-min walk"]
      diet := ["Avoid sugar & refined carbs", "Eat every 3-4 hrs", "High-fiber foods"]
      alerts := ["Monitor blood sugar before meals", "Carry glucose tablets"]
      priority := "HIGH" }),
   ("blood pressure",
    { exercise := ["30-min walking", "Breathing exercises", "Swimming"]
      diet := ["Low-sodium diet", "DASH diet foods", "Reduce caffeine"]
      alerts := ["Measure BP morning & evening", "Avoid stress"]
      priority := "HIGH" }),
   ("heart disease",
    { exercise := ["Low-intensity walking", "Gentle stretching", "Supervised cardio"]
      diet := ["Heart-healthy omega-3 foods", "Low-fat diet", "No trans fats"]
      alerts := ["Keep nitroglycerin handy", "Avoid heavy lifting"]
      priority := "HIGH" }),
   ("asthma",
    { exercise := ["Swimming", "Light indoor yoga", "Avoid cold-air running"]
      diet := ["Anti-inflammatory foods", "Avoid food allergens", "Stay hydrated"]
      alerts := ["Carry inhaler always", "Avoid smoke & dust"]
      priority := "HIGH" }),
   ("thyroid",
    { exercise := ["Cardio 30 mins daily", "Strength training 3x/week"]
      diet := ["Iodine-rich foods", "Avoid soy excess", "Selenium-rich foods"]
      alerts := ["Take medicine on empty stomach", "Regular TSH tests"]
      priority := "HIGH" }),
   ("obesity",
    { exercise := ["45-min cardio daily", "Strength training", "Swimming"]
      diet := ["Calorie deficit diet", "High protein meals", "No late-night eating"]
      alerts := ["Track daily calorie intake", "Weigh in weekly"]
      priority := "MEDIUM" }),
   ("anxiety",
    { exercise := ["Yoga & meditation", "Nature walks", "Deep breathing"]
      diet := ["Reduce caffeine", "Magnesium-rich foods", "Balanced meals"]
      alerts := ["Practice mindfulness daily", "Maintain sleep schedule"]
      priority := "MEDIUM" }),
   ("general",
    { exercise := ["30-min moderate exercise", "Stretching"]
      diet := ["Balanced nutrition", "Plenty of vegetables"]
      alerts := ["Stay hydrated", "Regular health checkups"]
      priority := "LOW" })]

/-- One value of `AGE_RULES` (ai_engine.py 64-68). -/
structure AgeRule where
  exercise_intensity : String
  hydration_glasses : Nat
  sleep_hours : Nat
deriving DecidableEq, Repr

/-- `AGE_RULES` in declaration order. -/
def AGE_RULES : List (String × AgeRule) :=
  [("young", { exercise_intensity := "HIGH", hydration_glasses := 10, sleep_hours := 8 }),
   ("adult", { exercise_intensity := "MEDIUM", hydration_glasses := 8, sleep_hours := 7 }),
   ("senior", { exercise_intensity := "LOW", hydration_glasses := 7, sleep_hours := 8 })]

/-- `MULTILANG` (ai_engine.py 70-103): language code to message-kind table,
in declaration order. -/
def MULTILANG : List (String × List (String × String)) :=
  [("en",
    [("medicine", "Time to take your {name} ({dosage}). Please take it now!"),
     ("water", "Stay hydrated! Drink a glass of water now. 💧"),
     ("exercise", "Time for your exercise: {activity}. Keep moving! 🏃"),
     ("meal", "Meal time reminder: {meal}. Eat healthy! 🥗"),
     ("sleep", "It\x27s time to sleep. Good night! Rest well. 🌙"),
     ("wake", "Good morning! Start your healthy day. ☀️")]),
   ("kn",
    [("medicine", "ನಿಮ್ಮ {name} ({dosage}) ತೆಗೆದುಕೊಳ್ಳುವ ಸಮಯ ಆಗಿದೆ. ದಯಮಾಡಿ ಈಗ ತೆಗೆದುಕೊಳ್ಳಿ!"),
     ("water", "ನೀರು ಕುಡಿಯಿರಿ! ಒಂದು ಗ್ಲಾಸ್ ನೀರು ಕುಡಿಯಿರಿ. 💧"),
     ("exercise", "ವ್ಯಾಯಾಮ ಸಮಯ: {activity}. ಚಲಿಸುತ್ತಾ ಇರಿ! 🏃"),
     ("meal", "ಊಟದ ಸಮಯ: {meal}. ಆರೋಗ್ಯಕರ ಊಟ ಮಾಡಿ! 🥗"),
     ("sleep", "ಮಲಗುವ ಸಮಯ ಆಯಿತು. ಶುಭ ರಾತ್ರಿ! 🌙"),
     ("wake", "ಶುಭೋದಯ! ಆರೋಗ್ಯಕರ ದಿನ ಪ್ರಾರಂಭಿಸಿ. ☀️")]),
   ("te",
    [("medicine", "మీ {name} ({dosage}) తీసుకోవాల్సిన సమయం. దయచేసి ఇప్పుడు తీసుకోండి!"),
     ("water", "నీరు తాగండి! ఒక గ్లాసు నీరు తాగండి. 💧"),
     ("exercise", "వ్యాయామ సమయం: {activity}. కదులుతూ ఉండండి! 🏃"),
     ("meal", "భోజన సమయం: {meal}. ఆరోగ్యకరంగా తినండి! 🥗"),
     ("sleep", "నిద్రపోయే సమయమైంది. శుభ రాత్రి! 🌙"),
     ("wake", "శుభోదయం! ఆరోగ్యకరమైన రోజు ప్రారంభించండి. ☀️")]),
   ("hi",
    [("medicine", "आपकी {name} ({dosage}) लेने का समय हो गया। अभी लें!"),
     ("water", "पानी पियें! एक गिलास पानी पियें। 💧"),
     ("exercise", "व्यायाम का समय: {activity}. चलते रहें! 🏃"),
     ("meal", "भोजन का समय: {meal}. स्वस्थ खाएं! 🥗"),
     ("sleep", "सोने का समय हो गया। शुभ रात्रि! 🌙"),
     ("wake", "सुप्रभात! स्वस्थ दिन की शुरुआत करें। ☀️")])]

/-- `get_age_group` (ai_engine.py 106-109). -/
def get_age_group (age : Int) : String :=
  if age < 30 then "young" else if age < 60 then "adult" else "senior"

/-- `get_condition_key` (ai_engine.py 112-118): empty input short-circuits to
"general"; otherwise the first catalog key (declaration order) that is a
substring of the lower-cased input wins, with fallback "general". -/
def get_condition_key (condition : String) : String :=
  if condition = "" then "general"
  else
    match CONDITION_RULES.find? (fun p => pyIn p.1 (pyLower condition)) with
    | some p => p.1
    | none => "general"

/-! ### Template substitution (model of `str.format(**kwargs)`) -/

/-- Read characters up to the closing `\x7d` of a `\x7b...\x7d` placeholder,
returning the key and the remainder. -/
def spanKey : List Char → Option (List Char × List Char)
  | [] => none
  | c :: rest =>
      if c = '}' then some ([], rest)
      else (spanKey rest).map (fun p => (c :: p.1, p.2))

/-- Fuel-indexed template substitution: replaces each `\x7b key \x7d`
placeholder by its value from `vals`; `none` models the `KeyError` Python
raises when a placeholder key is missing from the keyword arguments.  The
templates in `MULTILANG` contain only plain `\x7b name \x7d` placeholders,
so format specs, escaped braces and stray braces are not modelled.  The fuel
(initialised to the template length, which bounds the number of steps) only
makes the recursion structural. -/
def pyFormatAux (vals : List (String × String)) : Nat → List Char → Option (List Char)
  | 0, _ => some []
  | _ + 1, [] => some []
  | fuel + 1, c :: rest =>
      if c = '{' then
        match spanKey rest with
        | some (key, rest') =>
            match vals.lookup (String.mk key) with
            | some v => (pyFormatAux vals fuel rest').map (fun t => v.data ++ t)
            | none => none
        | none => none
      else (pyFormatAux vals fuel rest).map (fun t => c :: t)

/-- Model of `template.format(**kwargs)`; `none` is `KeyError`. -/
def pyFormat (vals : List (String × String)) (tpl : List Char) : Option (List Char) :=
  pyFormatAux vals tpl.length tpl

/-- The template chosen by `get_voice_message` before substitution:
`MULTILANG[lang].get(msg_type, MULTILANG["en"].get(msg_type, ""))` after the
unknown-language fallback to "en". -/
def templateOf (lang msg_type : String) : String :=
  let l := match MULTILANG.lookup lang with | some _ => lang | none => "en"
  let tbl := (MULTILANG.lookup l).getD []
  let en := (MULTILANG.lookup "en").getD []
  ((tbl.lookup msg_type).getD ((en.lookup msg_type).getD ""))

/-- `get_voice_message` (ai_engine.py 121-127): unknown language falls back
to "en"; unknown kind falls back to the "en" table, else ""; a `KeyError`
during substitution returns the raw template. -/
def get_voice_message (lang msg_type : String) (kwargs : List (String × String)) : String :=
  let template := templateOf lang msg_type
  match pyFormat kwargs template.data with
  | some cs => String.mk cs
  | none => template

/-! ### Database rows read by the engine -/

/-- One `users` row (database.py 19-26).  SQL `NULL` text fields are modelled
as `""` and a `NULL`/absent age as `0`; the code treats exactly these falsy
values through its `or`-defaults. -/
structure UserRow where
  id : Int
  name : String
  age : Int
  gender : String
  condition : String
  wake_time : String
  sleep_time : String
  language : String
  caregiver : String
deriving DecidableEq, Repr

/-- One `activity_logs` row as read by the scorer and the caregiver monitor
(only the `type` and `action` columns are consulted). -/
structure LogRow where
  type : String
  action : String
deriving DecidableEq, Repr

/-- One `medicines` row as read by `generate_schedule`: `name`, `dosage`, and
the `times` column after `json.loads` (the JSON (de)serialisation itself and
its `or '["08:00"]'` default are outside the model; any list value is
admitted). -/
structure MedRow where
  name : String
  dosage : String
  times : List String
deriving DecidableEq, Repr

/-! ### Caregiver monitor (`check_caregiver_alert`, ai_engine.py 337-350) -/

/-- Count of today-rows with `type == "medicine"` and `action == "skipped"`,
exactly as `check_caregiver_alert` computes it. -/
def missedCount (logs : List LogRow) : Nat :=
  ((logs.filter (fun l => l.type == "medicine")).filter
    (fun l => l.action == "skipped")).length

/-- Model of `check_caregiver_alert(user_id)`: the boolean result together
with the list of caregiver-alert messages appended to the store (`[]` or a
singleton).  `today` stands for `datetime.now().strftime("%d %b %Y")`. -/
def check_caregiver_alert (logs : List LogRow) (user : Option UserRow)
    (today : String) : Bool × List String :=
  let missed := missedCount logs
  match user with
  | some u =>
      if 3 ≤ missed ∧ u.caregiver ≠ "" then
        (true,
         ["HEALTH ALERT: " ++ u.name ++ " has missed " ++ toString missed ++
          " critical medicine reminders today (" ++ today ++
          "). Please check on them immediately."])
      else (false, [])
  | none => (false, [])

/-! ### Health score (`calculate_health_score`, ai_engine.py 265-304) -/

/-- Round an integer-scaled rational half-to-even; Python 3 `round` uses
banker's rounding.  (Python rounds the IEEE double; the model computes on
exact rationals.) -/
def roundHalfEven (q : Rat) : Int :=
  let f := ⌊q⌋
  let r := q - f
  if r < 1/2 then f
  else if 1/2 < r then f + 1
  else if 2 ∣ f then f else f + 1

/-- Model of Python `round(q, 1)`. -/
def pyRound1 (q : Rat) : Rat := (roundHalfEven (q * 10) : Rat) / 10

/-- The `breakdown` dict of `calculate_health_score`. -/
structure Breakdown where
  compliance_pct : Rat
  hydration_glasses : Int
  hydration_score : Rat
  medicine_score : Rat
  completed : Nat
  skipped : Nat
  snoozed : Nat
  total_reminders : Nat
deriving DecidableEq, Repr

/-- The dict returned by `calculate_health_score`; the sentinel's empty
breakdown is `none`. -/
structure HealthResult where
  score : Rat
  grade : String
  breakdown : Option Breakdown
deriving DecidableEq, Repr

/-- The reminder rows read by the scorer: only the `type` column is used, but
the rows are the same `reminders` table rows that `generate_schedule`
writes. -/
structure RemRow where
  type : String
deriving DecidableEq, Repr

/-- `completed = sum(1 for l in logs if l["action"] == "completed")`. -/
def completedCount (logs : List LogRow) : Nat :=
  (logs.filter (fun l => l.action == "completed")).length

/-- `compliance = (completed / max(total, 1)) * 100`. -/
def compliancePct (logs : List LogRow) (reminders : List RemRow) : Rat :=
  (completedCount logs : Rat) / ((max reminders.length 1 : Nat) : Rat) * 100

/-- `hydration_score = min((hydration / 8) * 100, 100)`. -/
def hydrationScore (hydration : Int) : Rat := min ((hydration : Rat) / 8 * 100) 100

/-- `med_total = sum(1 for r in reminders if r["type"] == "medicine")`. -/
def medTotal (reminders : List RemRow) : Nat :=
  (reminders.filter (fun r => r.type == "medicine")).length

/-- `med_completed` over `med_logs = [l for l in logs if l["type"] == "medicine"]`. -/
def medCompleted (logs : List LogRow) : Nat :=
  ((logs.filter (fun l => l.type == "medicine")).filter
    (fun l => l.action == "completed")).length

/-- `med_score = (med_completed / max(med_total, 1)) * 100 if med_total > 0 else 100`. -/
def medScore (logs : List LogRow) (reminders : List RemRow) : Rat :=
  if 0 < medTotal reminders then
    (medCompleted logs : Rat) / ((max (medTotal reminders) 1 : Nat) : Rat) * 100
  else 100

/-- `score = round(min(compliance*0.4 + hydration_score*0.2 + med_score*0.4, 100), 1)`. -/
def codeScore (logs : List LogRow) (reminders : List RemRow) (hydration : Int) : Rat :=
  pyRound1 (min (compliancePct logs reminders * (4/10) + hydrationScore hydration * (2/10)
    + medScore logs reminders * (4/10)) 100)

/-- The grade ladder of ai_engine.py 291-293. -/
def codeGrade (score : Rat) : String :=
  if 80 ≤ score then "Excellent 🌟"
  else if 60 ≤ score then "Good 👍"
  else if 40 ≤ score then "Needs Improvement ⚠️"
  else "Risk Alert 🚨"

/-- Model of `calculate_health_score(user_id)`.  Inputs are the rows the
function reads (`get_today_logs`, `get_reminders`, `get_hydration_today`,
the last a SQLite `INTEGER` and hence possibly negative); the second
component is the `save_health_score` write, `none` when nothing is
written.  The Python locals are the named definitions above. -/
def calculate_health_score (logs : List LogRow) (reminders : List RemRow)
    (hydration : Int) : HealthResult × Option (Rat × Breakdown) :=
  if reminders.length = 0 then ({ score := 0, grade := "N/A", breakdown := none }, none)
  else
    let score := codeScore logs reminders hydration
    let breakdown : Breakdown :=
      { compliance_pct := pyRound1 (compliancePct logs reminders)
        hydration_glasses := hydration
        hydration_score := pyRound1 (hydrationScore hydration)
        medicine_score := pyRound1 (medScore logs reminders)
        completed := completedCount logs
        skipped := (logs.filter (fun l => l.action == "skipped")).length
        snoozed := (logs.filter (fun l => l.action == "snoozed")).length
        total_reminders := reminders.length }
    ({ score := score, grade := codeGrade score, breakdown := some breakdown },
     some (score, breakdown))

/-! ### Schedule synthesizer (`generate_schedule`, ai_engine.py 131-261) -/

/-- One `reminders` row as built and written by `generate_schedule`. -/
structure Event where
  user_id : Int
  type : String
  title : String
  body : String
  scheduled : String
  priority : String
deriving DecidableEq, Repr

/-- The fixed hydration ladder (ai_engine.py 187). -/
def hydration_times : List String :=
  ["08:00", "10:00", "12:00", "14:00", "16:00", "18:00", "20:00"]

/-- Time-of-day of wake time plus `k` minutes, rendered `"%H:%M"`; model of
`(base + timedelta(...)).strftime("%H:%M")`. -/
def addMinutes (wh wm k : Nat) : String :=
  let t := wh * 60 + wm + k
  fmt2 (t / 60 % 24) ++ ":" ++ fmt2 (t % 60)

/-- `user.get("wake_time", "06:30") or "06:30"`: `NULL`/empty falls back. -/
def wakeStr (u : UserRow) : String := if u.wake_time = "" then "06:30" else u.wake_time

/-- `user.get("sleep_time", "22:00") or "22:00"`. -/
def sleepStr (u : UserRow) : String := if u.sleep_time = "" then "22:00" else u.sleep_time

/-- `user.get("condition", "general") or "general"`. -/
def condStr (u : UserRow) : String := if u.condition = "" then "general" else u.condition

/-- `user.get("age", 30) or 30` (0 models a falsy/absent age). -/
def effAge (u : UserRow) : Int := if u.age = 0 then 30 else u.age

/-- `CONDITION_RULES.get(condition_key, CONDITION_RULES["general"])`.  The
final `.getD` default is unreachable: "general" is a catalog key. -/
def rulesFor (key : String) : RuleSet :=
  (CONDITION_RULES.lookup key).getD
    ((CONDITION_RULES.lookup "general").getD ⟨[], [], [], ""⟩)

/-- `AGE_RULES[age_group]["hydration_glasses"]`.  The `.getD` default is
unreachable: `get_age_group` only returns catalog keys. -/
def hydrationFor (group : String) : Nat :=
  ((AGE_RULES.lookup group).getD ⟨"", 0, 0⟩).hydration_glasses

/-- The emitted events of `generate_schedule`, in emission order (wake,
medicines, breakfast, water ladder, exercise, lunch, evening activity,
dinner, health tips, sleep), before sorting and deduplication.  `wh, wm` and
`sh, sm` are the parsed wake and sleep clock fields. -/
def scheduleEvents (u : UserRow) (medicines : List MedRow) (wh wm sh sm : Nat) :
    List Event :=
  let uid := u.id
  let lang := u.language
  let rules := rulesFor (get_condition_key (condStr u))
  let hydration := hydrationFor (get_age_group (effAge u))
  [{ user_id := uid, type := "wake", title := "Good Morning! 🌅",
     body := get_voice_message lang "wake" [], scheduled := wakeStr u,
     priority := "HIGH" }]
  ++ medicines.flatMap (fun med => med.times.map (fun t =>
      { user_id := uid, type := "medicine", title := "💊 Medicine: " ++ med.name,
        body := get_voice_message lang "medicine"
          [("name", med.name), ("dosage", med.dosage)],
        scheduled := t, priority := "HIGH" }))
  ++ [{ user_id := uid, type := "meal", title := "🥗 Breakfast Time",
        body := get_voice_message lang "meal"
          [("meal", "Breakfast - " ++ rules.diet.headD "Healthy breakfast")],
        scheduled := addMinutes wh wm 60, priority := "HIGH" }]
  ++ (hydration_times.take (min hydration 7)).map (fun ht =>
      { user_id := uid, type := "water", title := "💧 Hydration Check",
        body := get_voice_message lang "water" [], scheduled := ht,
        priority := "LOW" })
  ++ [{ user_id := uid, type := "exercise", title := "🏃 Exercise Time",
        body := get_voice_message lang "exercise"
          [("activity", rules.exercise.headD "30-min walk")],
        scheduled := addMinutes wh wm 120, priority := "MEDIUM" },
      { user_id := uid, type := "meal", title := "🍱 Lunch Time",
        body := get_voice_message lang "meal"
          [("meal", "Lunch - " ++ (rules.diet.get? 1).getD "Balanced lunch")],
        scheduled := "13:00", priority := "MEDIUM" },
      { user_id := uid, type := "exercise", title := "🧘 Evening Activity",
        body := get_voice_message lang "exercise"
          [("activity", rules.exercise.getLast?.getD "Evening walk")],
        scheduled := "17:00", priority := "MEDIUM" },
      { user_id := uid, type := "meal", title := "🍽️ Dinner Time",
        body := get_voice_message lang "meal"
          [("meal", "Dinner - Light & healthy meal")],
        scheduled := "19:30", priority := "MEDIUM" }]
  ++ (rules.alerts.take 2).enum.map (fun p =>
      { user_id := uid, type := "health_tip", title := "💡 Health Tip",
        body := p.2, scheduled := fmt2 (9 + p.1 * 4) ++ ":00",
        priority := "LOW" })
  ++ [{ user_id := uid, type := "sleep", title := "🌙 Sleep Reminder",
        body := get_voice_message lang "sleep" [],
        scheduled := fmt2 sh ++ ":" ++ fmt2 (Int.toNat (max 0 ((sm : Int) - 30))),
        priority := "MEDIUM" }]

/-- The deduplication key of the final loop: `(item["scheduled"], item["type"])`. -/
def evKey (e : Event) : String × String := (e.scheduled, e.type)

/-- Sort comparison: `sorted(schedule, key=lambda x: x["scheduled"])`. -/
def evLe (a b : Event) : Bool := strLe a.scheduled b.scheduled

/-- The `seen`-set loop of ai_engine.py 249-255: keep the first item with
each `(scheduled, type)` key. -/
def dedupFirst : List Event → List (String × String) → List Event
  | [], _ => []
  | e :: rest, seen =>
      if evKey e ∈ seen then dedupFirst rest seen
      else e :: dedupFirst rest (evKey e :: seen)

/-- The schedule after the stable sort by scheduled time (Python `sorted`)
and before deduplication. -/
def sortedSchedule (u : UserRow) (medicines : List MedRow) (wh wm sh sm : Nat) :
    List Event :=
  (scheduleEvents u medicines wh wm sh sm).mergeSort evLe

/-- Model of `generate_schedule(user_id)`: `some []` when the user row is
absent, `none` when a stored wake or sleep time makes parsing or
`datetime.replace` raise, else the sorted, deduplicated reminder list that
the function persists and returns.  (The delete of old reminders and the
inserts are not modelled beyond the returned list.) -/
def generate_schedule (user : Option UserRow) (medicines : List MedRow) :
    Option (List Event) :=
  match user with
  | none => some []
  | some u =>
      match parseClock? (wakeStr u) with
      | none => none
      | some (wh, wm) =>
          match parseClock? (sleepStr u) with
          | none => none
          | some (sh, sm) =>
              some (dedupFirst (sortedSchedule u medicines wh wm sh sm) [])

/-! ### Prescription text parsing (`parse_prescription_text`, ai_engine.py 354-436) -/

/-- Model of the Python regex class `\s` restricted to ASCII (space, tab,
newline, carriage return, vertical tab, form feed). -/
def pyIsSpace (c : Char) : Bool :=
  c == ' ' || c == '\t' || c == '\n' || c == '\r' || c == '\x0b' || c == '\x0c'

/-- Model of `str.strip()`: remove leading and trailing whitespace. -/
def trimChars (cs : List Char) : List Char :=
  ((cs.dropWhile pyIsSpace).reverse.dropWhile pyIsSpace).reverse

/-- Case-insensitive literal match at the head of the input, returning the
matched original characters and the rest. -/
def ciPrefix : List Char → List Char → Option (List Char × List Char)
  | [], rest => some ([], rest)
  | _ :: _, [] => none
  | p :: ps, c :: cs =>
      if c.toLower = p.toLower then
        (ciPrefix ps cs).map (fun q => (c :: q.1, q.2))
      else none

/-- Attempt `\d+\s*<unit>` (case-insensitive) at the current position,
returning the matched text.  Greedy `\d+` and `\s*` need no backtracking
here because digits, whitespace and the letters of every unit are disjoint
character classes. -/
def matchNumUnit (unit : List Char) (cs : List Char) : Option (List Char) :=
  let p1 := cs.span Char.isDigit
  if p1.1 = [] then none
  else
    let p2 := p1.2.span pyIsSpace
    match ciPrefix unit p2.2 with
    | some q => some (p1.1 ++ p2.1 ++ q.1)
    | none => none

/-- The alternatives of `dosage_pattern` in alternation order
(`\d+\s*mg|\d+\s*ml|\d+\s*tablet|\d+\s*cap`, IGNORECASE). -/
def dosageUnits : List (List Char) := ["mg".data, "ml".data, "tablet".data, "cap".data]

/-- Model of `dosage_pattern.search(line)`: leftmost position wins, and at a
position the alternatives are tried in order; returns `group(0)`. -/
def searchDosage : List Char → Option (List Char)
  | [] => none
  | c :: rest =>
      match dosageUnits.findSome? (fun u => matchNumUnit u (c :: rest)) with
      | some m => some m
      | none => searchDosage rest

/-- Model of `re.search(r'(\d+)\s*(day|week|month)', line, IGNORECASE)`,
returning `(int(group(1)), group(2).lower())`.  The lowered unit equals the
pattern alternative itself because the match is case-insensitive. -/
def searchDuration : List Char → Option (Nat × String)
  | [] => none
  | c :: rest =>
      let here :=
        let p1 := (c :: rest).span Char.isDigit
        if p1.1 = [] then none
        else
          let p2 := p1.2.span pyIsSpace
          (["day", "week", "month"].findSome? (fun u =>
            (ciPrefix u.data p2.2).map (fun _ => u))).map
            (fun u => (digitsToNat p1.1, u))
      match here with
      | some m => some m
      | none => searchDuration rest

/-- The `time_keywords` dict (ai_engine.py 364-370) in declaration order. -/
def time_keywords : List (String × String) :=
  [("morning", "08:00"), ("afternoon", "13:00"),
   ("evening", "18:00"), ("night", "21:00"),
   ("twice", "2x"), ("thrice", "3x"),
   ("breakfast", "08:00"), ("lunch", "13:00"),
   ("dinner", "19:30"), ("bedtime", "21:30")]

/-- The timing-keyword loop of ai_engine.py 398-405: every matching keyword
overwrites `times`, so the last match in iteration order wins. -/
def applyTimings (lline : List Char) (init : List String) : List String :=
  time_keywords.foldl (fun acc kw =>
    if listContains kw.1.data lline then
      if kw.2 = "2x" then ["08:00", "20:00"]
      else if kw.2 = "3x" then ["08:00", "14:00", "20:00"]
      else [kw.2]
    else acc) init

/-- `known_medicines` (ai_engine.py 372-378), in catalog order. -/
def known_medicines : List String :=
  ["Metformin", "Glucophage", "Aspirin", "Paracetamol", "Atorvastatin",
   "Lisinopril", "Amlodipine", "Omeprazole", "Metoprolol", "Losartan",
   "Ramipril", "Cetirizine", "Pantoprazole", "Vitamin", "Calcium", "Iron",
   "Amoxicillin", "Ciprofloxacin", "Azithromycin", "Doxycycline",
   "Levothyroxine", "Insulin", "Glipizide", "Januvia", "Warfarin"]

/-- One parsed medicine candidate dict. -/
structure MedicineCandidate where
  name : String
  dosage : String
  times : List String
  duration : Int
deriving DecidableEq, Repr

/-- One pass-1 loop iteration over a raw line: strip, skip empty lines,
open a new candidate on the first catalog medicine whose lowered name occurs
in the lowered line (flushing the previous candidate), then let a
`<number> (day|week|month)` match update the open candidate's duration. -/
def processLine (acc : List MedicineCandidate × Option MedicineCandidate)
    (rawLine : List Char) : List MedicineCandidate × Option MedicineCandidate :=
  let line := trimChars rawLine
  if line = [] then acc
  else
    let lline := line.map Char.toLower
    let step :=
      match known_medicines.find? (fun med =>
          listContains (med.data.map Char.toLower) lline) with
      | some med =>
          let dosage := match searchDosage line with
            | some m => String.mk m
            | none => "1 tablet"
          (acc.1 ++ acc.2.toList,
           some { name := med, dosage := dosage,
                  times := applyTimings lline ["08:00"], duration := 7 })
      | none => acc
    match searchDuration line with
    | some d =>
        match step.2 with
        | some cur =>
            let dur : Int :=
              if d.2 = "week" then (d.1 : Int) * 7
              else if d.2 = "month" then (d.1 : Int) * 30
              else (d.1 : Int)
            (step.1, some { cur with duration := dur })
        | none => step
    | none => step

/-- Model of `line.split()`: split on whitespace runs, dropping empties. -/
def pySplitWs : List Char → List Char → List (List Char)
  | [], cur => if cur = [] then [] else [cur.reverse]
  | c :: rest, cur =>
      if pyIsSpace c then
        if cur = [] then pySplitWs rest []
        else cur.reverse :: pySplitWs rest []
      else pySplitWs rest (c :: cur)

/-- The pass-2 word loop (ai_engine.py 424-433): a capitalized token longer
than 4 characters followed by at least one more token opens a generic
candidate; the inner loop stops once 5 candidates exist. -/
def pass2Words (line : List Char) (n : Nat) :
    List (List Char) → Nat → List MedicineCandidate → List MedicineCandidate
  | [], _, acc => acc
  | w :: ws, i, acc =>
      if (match w with | c :: _ => c.isUpper | [] => false)
          && decide (4 < w.length) && decide (i < n - 1) then
        let dosage := match searchDosage line with
          | some m => String.mk m
          | none => "1 tablet"
        let acc' := acc ++ [{ name := String.mk w, dosage := dosage,
                              times := ["08:00"], duration := 7 }]
        if 5 ≤ acc'.length then acc' else pass2Words line n ws (i + 1) acc'
      else pass2Words line n ws (i + 1) acc

/-- The pass-2 line loop (ai_engine.py 421-434), stopping once 5 candidates
exist. -/
def pass2Lines : List (List Char) → List MedicineCandidate → List MedicineCandidate
  | [], acc => acc
  | l :: ls, acc =>
      let ws := pySplitWs l []
      let acc' := pass2Words l ws.length ws 0 acc
      if 5 ≤ acc'.length then acc' else pass2Lines ls acc'

/-- Model of `parse_prescription_text(text)`. -/
def parse_prescription_text (text : String) : List MedicineCandidate :=
  let lines := splitOnChar '\n' text.data
  let p1 := lines.foldl processLine ([], none)
  let medicines := p1.1 ++ p1.2.toList
  let medicines := if medicines = [] then pass2Lines lines [] else medicines
  medicines.take 10

/-! ### Helper lemmas: lexicographic comparison -/

theorem charListLe_total : ∀ a b : List Char, charListLe a b = true ∨ charListLe b a = true
  | [], _ => Or.inl rfl
  | _ :: _, [] => Or.inr rfl
  | x :: xs, y :: ys => by
      by_cases hxy : x = y
      · subst hxy
        simpa [charListLe] using charListLe_total xs ys
      · rcases lt_trichotomy x y with h | h | h
        · exact Or.inl (by simp [charListLe, hxy, h])
        · exact absurd h hxy
        · exact Or.inr (by simp [charListLe, Ne.symm hxy, h])

theorem charListLe_trans : ∀ a b c : List Char,
    charListLe a b = true → charListLe b c = true → charListLe a c = true
  | [], _, _, _, _ => rfl
  | _ :: _, [], _, h, _ => by simp [charListLe] at h
  | _ :: _, _ :: _, [], _, h => by simp [charListLe] at h
  | x :: xs, y :: ys, z :: zs, h1, h2 => by
      by_cases hxy : x = y <;> by_cases hyz : y = z
      · subst hxy; subst hyz
        simp only [charListLe, if_pos rfl] at h1 h2 ⊢
        exact charListLe_trans xs ys zs h1 h2
      · subst hxy
        simp only [charListLe, if_pos rfl, if_neg hyz, decide_eq_true_eq] at h2 ⊢
        simp [hyz, h2]
      · subst hyz
        simp only [charListLe, if_neg hxy, decide_eq_true_eq] at h1
        simp [charListLe, hxy, h1]
      · simp only [charListLe, if_neg hxy, if_neg hyz, decide_eq_true_eq] at h1 h2
        have hxz : x < z := lt_trans h1 h2
        simp [charListLe, ne_of_lt hxz, hxz]

theorem evLe_trans : ∀ a b c : Event, evLe a b → evLe b c → evLe a c :=
  fun _ _ _ h1 h2 => charListLe_trans _ _ _ h1 h2

theorem evLe_total : ∀ a b : Event, (evLe a b || evLe b a) = true := by
  intro a b
  rcases charListLe_total a.scheduled.data b.scheduled.data with h | h <;>
    simp [evLe, strLe, h]

/-! ### Helper lemmas: the dedup loop -/

theorem dedupFirst_sublist : ∀ (l : List Event) (seen : List (String × String)),
    (dedupFirst l seen).Sublist l
  | [], _ => by simp [dedupFirst]
  | e :: rest, seen => by
      rw [dedupFirst]
      split
      · exact (dedupFirst_sublist rest seen).cons e
      · exact (dedupFirst_sublist rest _).cons₂ e

theorem mem_dedupFirst_not_seen : ∀ (l : List Event) (seen : List (String × String))
    (e : Event), e ∈ dedupFirst l seen → evKey e ∉ seen
  | [], _, _, h => by simp [dedupFirst] at h
  | a :: rest, seen, e, h => by
      rw [dedupFirst] at h
      by_cases ha : evKey a ∈ seen
      · rw [if_pos ha] at h
        exact mem_dedupFirst_not_seen rest seen e h
      · rw [if_neg ha] at h
        rcases List.mem_cons.mp h with rfl | h'
        · exact ha
        · intro hmem
          exact mem_dedupFirst_not_seen rest _ e h' (List.mem_cons_of_mem _ hmem)

theorem dedupFirst_pairwise_key : ∀ (l : List Event) (seen : List (String × String)),
    (dedupFirst l seen).Pairwise (fun a b => evKey a ≠ evKey b)
  | [], _ => by simp [dedupFirst]
  | a :: rest, seen => by
      rw [dedupFirst]
      split
      · exact dedupFirst_pairwise_key rest seen
      · refine List.Pairwise.cons ?_ (dedupFirst_pairwise_key rest _)
        intro b hb hkey
        exact mem_dedupFirst_not_seen rest _ b hb (hkey ▸ List.mem_cons_self _ _)

theorem dedupFirst_filter_of_seen (k : String × String) :
    ∀ (l : List Event) (seen : List (String × String)), k ∈ seen →
      (dedupFirst l seen).filter (fun e => evKey e == k) = []
  | [], _, _ => by simp [dedupFirst]
  | a :: rest, seen, hk => by
      rw [dedupFirst]
      by_cases ha : evKey a ∈ seen
      · rw [if_pos ha]
        exact dedupFirst_filter_of_seen k rest seen hk
      · rw [if_neg ha]
        have hne : (evKey a == k) = false := by
          refine beq_eq_false_iff_ne.mpr ?_
          intro h
          exact ha (h ▸ hk)
        rw [List.filter_cons, hne]
        simp only [Bool.false_eq_true, if_false]
        exact dedupFirst_filter_of_seen k rest _ (List.mem_cons_of_mem _ hk)

theorem dedupFirst_filter_eq (k : String × String) :
    ∀ (l : List Event) (seen : List (String × String)), k ∉ seen →
      (dedupFirst l seen).filter (fun e => evKey e == k)
        = (l.find? (fun e => evKey e == k)).toList
  | [], _, _ => by simp [dedupFirst]
  | a :: rest, seen, hk => by
      rw [dedupFirst]
      by_cases ha : evKey a ∈ seen
      · rw [if_pos ha]
        have hne : (evKey a == k) = false := by
          refine beq_eq_false_iff_ne.mpr ?_
          intro h
          exact hk (h ▸ ha)
        rw [List.find?_cons, hne]
        simp only [Bool.false_eq_true, if_false]
        exact dedupFirst_filter_eq k rest seen hk
      · rw [if_neg ha]
        by_cases hak : evKey a = k
        · have hpos : (evKey a == k) = true := beq_iff_eq.mpr hak
          rw [List.filter_cons, List.find?_cons, hpos]
          have h0 : (dedupFirst rest (evKey a :: seen)).filter (fun e => evKey e == k) = [] :=
            dedupFirst_filter_of_seen k rest _ (hak ▸ List.mem_cons_self _ _)
          simp [h0]
        · have hne : (evKey a == k) = false := beq_eq_false_iff_ne.mpr hak
          rw [List.filter_cons, List.find?_cons, hne]
          simp only [Bool.false_eq_true, if_false]
          refine dedupFirst_filter_eq k rest _ ?_
          intro h
          rcases List.mem_cons.mp h with h' | h'
          · exact hak h'.symm
          · exact hk h'

/-! ### Helper lemmas: shape of `generate_schedule` -/

theorem generate_schedule_some {u : UserRow} {meds : List MedRow} {out : List Event}
    (h : generate_schedule (some u) meds = some out) :
    ∃ wh wm sh sm, parseClock? (wakeStr u) = some (wh, wm) ∧
      parseClock? (sleepStr u) = some (sh, sm) ∧
      out = dedupFirst (sortedSchedule u meds wh wm sh sm) [] := by
  rw [generate_schedule] at h
  cases hw : parseClock? (wakeStr u) with
  | none => rw [hw] at h; exact absurd h (by simp)
  | some pw =>
      obtain ⟨wh, wm⟩ := pw
      rw [hw] at h
      cases hs : parseClock? (sleepStr u) with
      | none => rw [hs] at h; exact absurd h (by simp)
      | some ps =>
          obtain ⟨sh, sm⟩ := ps
          rw [hs] at h
          exact ⟨wh, wm, sh, sm, rfl, rfl, (Option.some_inj.mp h).symm⟩

theorem sortedSchedule_pairwise (u : UserRow) (meds : List MedRow) (wh wm sh sm : Nat) :
    (sortedSchedule u meds wh wm sh sm).Pairwise (fun a b => evLe a b = true) :=
  List.sorted_mergeSort
    (fun a b c h1 h2 => evLe_trans a b c h1 h2)
    (fun a b => evLe_total a b)
    (scheduleEvents u meds wh wm sh sm)

theorem sortedSchedule_perm (u : UserRow) (meds : List MedRow) (wh wm sh sm : Nat) :
    (sortedSchedule u meds wh wm sh sm).Perm (scheduleEvents u meds wh wm sh sm) :=
  List.mergeSort_perm _ _

/-- Membership in the deduplicated output implies membership in the raw
emitted schedule. -/
theorem mem_schedule_of_mem_out {u : UserRow} {meds : List MedRow} {wh wm sh sm : Nat}
    {e : Event} (h : e ∈ dedupFirst (sortedSchedule u meds wh wm sh sm) []) :
    e ∈ scheduleEvents u meds wh wm sh sm :=
  (sortedSchedule_perm u meds wh wm sh sm).mem_iff.mp
    ((dedupFirst_sublist _ _).subset h)

/-- If some emitted event has key `k`, the deduplicated output keeps exactly
one event with key `k`, namely the first one in sort order. -/
theorem exists_key_in_out {u : UserRow} {meds : List MedRow} {wh wm sh sm : Nat}
    {k : String × String}
    (h : ∃ e ∈ scheduleEvents u meds wh wm sh sm, evKey e = k) :
    ∃ e ∈ dedupFirst (sortedSchedule u meds wh wm sh sm) [], evKey e = k := by
  obtain ⟨e, he, hk⟩ := h
  have hmem : e ∈ sortedSchedule u meds wh wm sh sm :=
    (sortedSchedule_perm u meds wh wm sh sm).mem_iff.mpr he
  have hsome : ((sortedSchedule u meds wh wm sh sm).find?
      (fun e => evKey e == k)).isSome := by
    rw [List.find?_isSome]
    exact ⟨e, hmem, beq_iff_eq.mpr hk⟩
  obtain ⟨e', he'⟩ := Option.isSome_iff_exists.mp hsome
  have hpred := List.find?_some he'
  simp only [beq_iff_eq] at hpred
  have hfilter : (dedupFirst (sortedSchedule u meds wh wm sh sm) []).filter
      (fun e => evKey e == k) = [e'] := by
    rw [dedupFirst_filter_eq k _ [] (by simp), he']
    rfl
  have hmem' : e' ∈ (dedupFirst (sortedSchedule u meds wh wm sh sm) []).filter
      (fun e => evKey e == k) := by
    rw [hfilter]; exact List.mem_singleton.mpr rfl
  exact ⟨e', (List.mem_filter.mp hmem').1, hpred⟩

/-! ### Helper lemmas: contents of the emitted schedule -/

theorem min_hydration_eq_seven (a : Int) :
    min (hydrationFor (get_age_group a)) 7 = 7 := by
  rw [get_age_group]
  split_ifs <;> decide

theorem scheduleEvents_sleep_sched {u : UserRow} {meds : List MedRow}
    {wh wm sh sm : Nat} {e : Event} (he : e ∈ scheduleEvents u meds wh wm sh sm)
    (ht : e.type = "sleep") :
    e.scheduled = fmt2 sh ++ ":" ++ fmt2 (Int.toNat (max 0 ((sm : Int) - 30))) := by
  simp only [scheduleEvents, List.mem_append, List.mem_cons, List.mem_map,
    List.mem_flatMap, List.not_mem_nil, or_false, List.mem_singleton] at he
  rcases he with ((((((h | h) | h) | h) | h) | h) | h)
  · subst h; simp at ht
  · obtain ⟨med, _, t, _, rfl⟩ := h; simp at ht
  · subst h; simp at ht
  · obtain ⟨t, _, rfl⟩ := h; simp at ht
  · rcases h with h | h | h | h <;> (subst h; simp at ht)
  · obtain ⟨p, _, rfl⟩ := h; simp at ht
  · subst h; rfl

theorem scheduleEvents_sleep_mem (u : UserRow) (meds : List MedRow)
    (wh wm sh sm : Nat) :
    ∃ e ∈ scheduleEvents u meds wh wm sh sm,
      evKey e = (fmt2 sh ++ ":" ++ fmt2 (Int.toNat (max 0 ((sm : Int) - 30))), "sleep") := by
  refine ⟨{ user_id := u.id, type := "sleep", title := "🌙 Sleep Reminder",
            body := get_voice_message u.language "sleep" [],
            scheduled := fmt2 sh ++ ":" ++ fmt2 (Int.toNat (max 0 ((sm : Int) - 30))),
            priority := "MEDIUM" }, ?_, rfl⟩
  simp [scheduleEvents]

theorem scheduleEvents_water_sched {u : UserRow} {meds : List MedRow}
    {wh wm sh sm : Nat} {e : Event} (he : e ∈ scheduleEvents u meds wh wm sh sm)
    (ht : e.type = "water") : e.scheduled ∈ hydration_times := by
  simp only [scheduleEvents, List.mem_append, List.mem_cons, List.mem_map,
    List.mem_flatMap, List.not_mem_nil, or_false, List.mem_singleton] at he
  rcases he with ((((((h | h) | h) | h) | h) | h) | h)
  · subst h; simp at ht
  · obtain ⟨med, _, t, _, rfl⟩ := h; simp at ht
  · subst h; simp at ht
  · obtain ⟨t, htt, rfl⟩ := h
    exact List.mem_of_mem_take htt
  · rcases h with h | h | h | h <;> (subst h; simp at ht)
  · obtain ⟨p, _, rfl⟩ := h; simp at ht
  · subst h; simp at ht

theorem scheduleEvents_water_mem (u : UserRow) (meds : List MedRow)
    (wh wm sh sm : Nat) {t : String} (ht : t ∈ hydration_times) :
    ∃ e ∈ scheduleEvents u meds wh wm sh sm, evKey e = (t, "water") := by
  refine ⟨{ user_id := u.id, type := "water", title := "💧 Hydration Check",
            body := get_voice_message u.language "water" [],
            scheduled := t, priority := "LOW" }, ?_, rfl⟩
  have htake : hydration_times.take
      (min (hydrationFor (get_age_group (effAge u))) 7) = hydration_times := by
    rw [min_hydration_eq_seven]
    rfl
  simp [scheduleEvents, htake]
  exact ht

/-! ### Claim theorems -/

/-- C5: for a present user, `check_caregiver_alert` returns `true` and
appends exactly one caregiver alert iff today's count of medicine-kind logs
with action "skipped" is at least 3 and the caregiver contact is non-empty;
in every other case it returns `false` and appends nothing. -/
theorem check_caregiver_alert_iff :
    ∀ (logs : List LogRow) (u : UserRow) (today : String),
      (((check_caregiver_alert logs (some u) today).1 = true ∧
        (check_caregiver_alert logs (some u) today).2.length = 1)
          ↔ (3 ≤ missedCount logs ∧ u.caregiver ≠ ""))
      ∧ (¬ (3 ≤ missedCount logs ∧ u.caregiver ≠ "") →
          check_caregiver_alert logs (some u) today = (false, [])) := by
  intro logs u today
  by_cases h : 3 ≤ missedCount logs ∧ u.caregiver ≠ "" <;>
    simp [check_caregiver_alert, h]

/-- C5 witness: three skipped medicine logs and a caregiver contact escalate
with one alert; two skips do not. -/
theorem check_caregiver_alert_iff_witness :
    ((check_caregiver_alert
        [⟨"medicine", "skipped"⟩, ⟨"medicine", "skipped"⟩, ⟨"medicine", "skipped"⟩]
        (some ⟨1, "Asha", 70, "F", "", "06:30", "22:00", "en", "+91 98765"⟩)
        "12 Oct 2025").1 = true ∧
      (check_caregiver_alert
        [⟨"medicine", "skipped"⟩, ⟨"medicine", "skipped"⟩, ⟨"medicine", "skipped"⟩]
        (some ⟨1, "Asha", 70, "F", "", "06:30", "22:00", "en", "+91 98765"⟩)
        "12 Oct 2025").2.length = 1)
    ∧ check_caregiver_alert [⟨"medicine", "skipped"⟩, ⟨"medicine", "skipped"⟩]
        (some ⟨1, "Asha", 70, "F", "", "06:30", "22:00", "en", "+91 98765"⟩)
        "12 Oct 2025" = (false, []) :=
  ⟨(check_caregiver_alert_iff
      [⟨"medicine", "skipped"⟩, ⟨"medicine", "skipped"⟩, ⟨"medicine", "skipped"⟩]
      ⟨1, "Asha", 70, "F", "", "06:30", "22:00", "en", "+91 98765"⟩
      "12 Oct 2025").1.mpr (by decide),
   (check_caregiver_alert_iff [⟨"medicine", "skipped"⟩, ⟨"medicine", "skipped"⟩]
      ⟨1, "Asha", 70, "F", "", "06:30", "22:00", "en", "+91 98765"⟩
      "12 Oct 2025").2 (by decide)⟩

/-- C6: with zero active reminders the scorer returns the sentinel
(score 0, grade "N/A", empty breakdown) and writes nothing. -/
theorem calculate_health_score_no_reminders :
    ∀ (logs : List LogRow) (hydration : Int),
      calculate_health_score logs [] hydration =
        ({ score := 0, grade := "N/A", breakdown := none }, none) := by
  intro logs hydration
  rfl

/-- A successful association-list lookup comes from a member pair. -/
theorem lookup_mem {α β : Type} [BEq α] [LawfulBEq α] :
    ∀ (l : List (α × β)) (k : α) (v : β), l.lookup k = some v → (k, v) ∈ l
  | [], _, _, h => by simp [List.lookup] at h
  | (a, b) :: t, k, v, h => by
      cases hka : (k == a)
      · simp only [List.lookup, hka] at h
        exact List.mem_cons_of_mem _ (lookup_mem t k v h)
      · simp only [List.lookup, hka] at h
        obtain rfl := eq_of_beq hka
        obtain rfl : b = v := by simpa using h
        exact List.mem_cons_self _ _

/-- C7: condition-key resolution lower-cases the input, tries the catalog
keys in declaration order, returns the first key that is a substring of the
input, and falls back to "general" on no match or empty input. -/
theorem get_condition_key_spec :
    get_condition_key "" = "general"
    ∧ (∀ c, (∀ k ∈ CONDITION_RULES.map Prod.fst, pyIn k (pyLower c) = false) →
        get_condition_key c = "general")
    ∧ (∀ (c : String) (l₁ : List (String × RuleSet)) (p : String × RuleSet)
        (l₂ : List (String × RuleSet)), c ≠ "" →
        CONDITION_RULES = l₁ ++ p :: l₂ →
        pyIn p.1 (pyLower c) = true →
        (∀ q ∈ l₁, pyIn q.1 (pyLower c) = false) →
        get_condition_key c = p.1) := by
  refine ⟨rfl, ?_, ?_⟩
  · intro c hall
    rw [get_condition_key]
    split
    · rfl
    · have hnone : CONDITION_RULES.find? (fun p => pyIn p.1 (pyLower c)) = none := by
        rw [List.find?_eq_none]
        intro x hx
        simp [hall x.1 (List.mem_map.mpr ⟨x, hx, rfl⟩)]
      rw [hnone]
  · intro c l₁ p l₂ hc hdec hp hl₁
    rw [get_condition_key, if_neg hc, hdec, List.find?_append]
    have h1 : l₁.find? (fun q => pyIn q.1 (pyLower c)) = none := by
      rw [List.find?_eq_none]
      intro x hx
      simp [hl₁ x hx]
    rw [h1, List.find?_cons, hp]
    rfl

/-- C7 witness: "High Blood Pressure" resolves to the "blood pressure" key
past the non-matching "diabetes" key, and an unmatched input falls back to
"general". -/
theorem get_condition_key_spec_witness :
    get_condition_key "High Blood Pressure" = "blood pressure"
    ∧ get_condition_key "seasonal flu" = "general" :=
  ⟨get_condition_key_spec.2.2 "High Blood Pressure" (CONDITION_RULES.take 1)
      ("blood pressure",
        { exercise := ["30-min walking", "Breathing exercises", "Swimming"]
          diet := ["Low-sodium diet", "DASH diet foods", "Reduce caffeine"]
          alerts := ["Measure BP morning & evening", "Avoid stress"]
          priority := "HIGH" })
      (CONDITION_RULES.drop 2) (by decide) (by decide) (by decide) (by decide),
   get_condition_key_spec.2.1 "seasonal flu" (by decide)⟩

/-- C8: message localization never fails: an unknown language code behaves
as the default language "en"; a message kind unknown to the resolved
language falls back to the "en" template, and if unknown everywhere the
result is the empty string; a substitution miss returns the raw template
verbatim. -/
theorem get_voice_message_spec :
    (∀ lang ty kwargs, MULTILANG.lookup lang = none →
        get_voice_message lang ty kwargs = get_voice_message "en" ty kwargs)
    ∧ (∀ lang ty (tbl : List (String × String)), MULTILANG.lookup lang = some tbl →
        tbl.lookup ty = none →
        templateOf lang ty = (((MULTILANG.lookup "en").getD []).lookup ty).getD "")
    ∧ (∀ lang ty kwargs, (∀ e ∈ MULTILANG, e.2.lookup ty = none) →
        get_voice_message lang ty kwargs = "")
    ∧ (∀ lang ty kwargs, pyFormat kwargs (templateOf lang ty).data = none →
        get_voice_message lang ty kwargs = templateOf lang ty) := by
  refine ⟨?_, ?_, ?_, ?_⟩
  · intro lang ty kwargs h
    have : templateOf lang ty = templateOf "en" ty := by
      rw [templateOf, templateOf, h]
      cases h2 : MULTILANG.lookup "en" <;> simp [h2]
    rw [get_voice_message, get_voice_message, this]
  · intro lang ty tbl h1 h2
    simp [templateOf, h1, h2]
  · intro lang ty kwargs hall
    have htpl : templateOf lang ty = "" := by
      rw [templateOf]
      have hen : (((MULTILANG.lookup "en").getD []).lookup ty).getD "" = "" := by
        cases he : MULTILANG.lookup "en" with
        | none => rfl
        | some entbl =>
            have h3 := hall ("en", entbl) (lookup_mem _ _ _ he)
            dsimp only at h3
            simp [h3]
      cases hl : MULTILANG.lookup lang with
      | none => simp [hl, hen]
      | some tbl =>
          have h3 := hall (lang, tbl) (lookup_mem _ _ _ hl)
          dsimp only at h3
          simp [hl, h3, hen]
    rw [get_voice_message, htpl]
    rfl
  · intro lang ty kwargs h
    rw [get_voice_message, h]

/-- C8 witness: the unknown language "fr" behaves as "en"; the unknown kind
"alarm" yields ""; the "medicine" template with no substitutions supplied is
returned verbatim. -/
theorem get_voice_message_spec_witness :
    get_voice_message "fr" "water" [] = get_voice_message "en" "water" []
    ∧ get_voice_message "fr" "alarm" [] = ""
    ∧ get_voice_message "en" "medicine" [] = templateOf "en" "medicine" :=
  ⟨get_voice_message_spec.1 "fr" "water" [] (by decide),
   get_voice_message_spec.2.2.1 "fr" "alarm" [] (by decide),
   get_voice_message_spec.2.2.2 "en" "medicine" [] (by decide)⟩

/-- C1 counterexample: a reminder scheduled "23:45" and skipped three times
gets the suggestion "24:15" — the hour carry is not reduced modulo 24, so
the suggested time is not "00:15" as the claim states. -/
theorem run_adaptive_learning_no_mod24 :
    run_adaptive_learning [⟨7, "🌙 Sleep Reminder", "23:45"⟩] (fun _ => 3) =
      [⟨7, "🌙 Sleep Reminder", "23:45", "24:15",
        "Skipped 3 times in last 7 days", "reschedule"⟩]
    ∧ ("24:15" : String) ≠ "00:15" := by
  constructor
  · decide
  · decide

/-- Every emitted suggestion stems from a reminder of the input list with a
skip count of at least 3 and records that reminder's id and shifted time. -/
theorem mem_run_adaptive_learning {rs : List Reminder} {sk : Int → Nat}
    {s : Suggestion} (hs : s ∈ run_adaptive_learning rs sk) :
    ∃ r ∈ rs, s.reminder_id = r.id ∧ 3 ≤ sk r.id ∧
      shiftTime? r.scheduled = some s.suggested_time := by
  rw [run_adaptive_learning, List.mem_flatMap] at hs
  obtain ⟨r, hr, hsr⟩ := hs
  refine ⟨r, hr, ?_⟩
  by_cases h3 : 3 ≤ sk r.id
  · rw [if_pos h3] at hsr
    cases hst : shiftTime? r.scheduled with
    | none => rw [hst] at hsr; simp at hsr
    | some t =>
        rw [hst] at hsr
        obtain rfl := List.mem_singleton.mp hsr
        exact ⟨rfl, h3, rfl⟩
  · rw [if_neg h3] at hsr
    simp at hsr

/-- Unfolding of the suggestion loop over the head reminder. -/
theorem run_adaptive_learning_cons (a : Reminder) (t : List Reminder) (sk : Int → Nat) :
    run_adaptive_learning (a :: t) sk =
      (if 3 ≤ sk a.id then
        match shiftTime? a.scheduled with
        | some ts =>
            [{ reminder_id := a.id, title := a.title, current_time := a.scheduled,
               suggested_time := ts,
               reason := "Skipped " ++ toString (sk a.id) ++ " times in last 7 days",
               action := "reschedule" }]
        | none => []
      else []) ++ run_adaptive_learning t sk := by
  rw [run_adaptive_learning, List.flatMap_cons, ← run_adaptive_learning]

/-- With pairwise distinct reminder ids, the loop emits exactly one
suggestion for a parseable reminder iff its skip count is at least 3. -/
theorem countP_run_adaptive_learning (sk : Int → Nat) (r : Reminder) :
    ∀ rs : List Reminder, r ∈ rs → (rs.map Reminder.id).Nodup →
      (shiftTime? r.scheduled).isSome →
      (run_adaptive_learning rs sk).countP (fun s => s.reminder_id == r.id)
        = if 3 ≤ sk r.id then 1 else 0 := by
  intro rs
  induction rs with
  | nil => intro hr; simp at hr
  | cons a t ih =>
      intro hr hnd hsome
      rw [List.map_cons, List.nodup_cons] at hnd
      obtain ⟨hna, hndt⟩ := hnd
      rw [run_adaptive_learning_cons, List.countP_append]
      rcases List.mem_cons.mp hr with rfl | hrt
      · have hzero : (run_adaptive_learning t sk).countP
            (fun s => s.reminder_id == r.id) = 0 := by
          rw [List.countP_eq_zero]
          intro s hs
          obtain ⟨r', hr', hid, _, _⟩ := mem_run_adaptive_learning hs
          simp only [beq_iff_eq]
          intro heq
          exact hna (List.mem_map.mpr ⟨r', hr', by rw [← hid, heq]⟩)
        rw [hzero, Nat.add_zero]
        obtain ⟨t0, ht0⟩ := Option.isSome_iff_exists.mp hsome
        by_cases h3 : 3 ≤ sk r.id
        · rw [if_pos h3, if_pos h3, ht0]
          simp
        · rw [if_neg h3, if_neg h3]
          rfl
      · have hane : (a.id == r.id) = false := by
          refine beq_eq_false_iff_ne.mpr ?_
          intro heq
          exact hna (List.mem_map.mpr ⟨r, hrt, heq.symm⟩)
        have hblock0 : ∀ bl : List Suggestion,
            (∀ s ∈ bl, s.reminder_id = a.id) →
            bl.countP (fun s => s.reminder_id == r.id) = 0 := by
          intro bl hbl
          rw [List.countP_eq_zero]
          intro s hs
          rw [hbl s hs]
          simp only [hane]
          exact Bool.false_ne_true
        rw [hblock0 _ ?hb, Nat.zero_add]
        · exact ih hrt hndt hsome
        case hb =>
          intro s hs
          split at hs
          · split at hs
            · obtain rfl := List.mem_singleton.mp hs
              rfl
            · simp at hs
          · simp at hs

/-- C1 (amended): for every active reminder whose scheduled time parses as
two colon-separated integers, the rescheduler emits a suggestion exactly
when its skip count over the trailing 7 days is at least 3, and the
suggested time is the scheduled time plus 30 minutes where the minute
overflow carries into the hour WITHOUT reduction modulo 24: "08:45" yields
"09:15" but "23:45" yields "24:15"; a skip count of 2 yields no
suggestion. -/
theorem run_adaptive_learning_spec :
    (∀ (rs : List Reminder) (sk : Int → Nat) (r : Reminder) (h m : Int),
      r ∈ rs → (rs.map Reminder.id).Nodup → splitHM? r.scheduled = some (h, m) →
      ((run_adaptive_learning rs sk).countP (fun s => s.reminder_id == r.id)
          = if 3 ≤ sk r.id then 1 else 0)
      ∧ (∀ s ∈ run_adaptive_learning rs sk, s.reminder_id = r.id →
          s.suggested_time = addThirty h m))
    ∧ addThirty 8 45 = "09:15" ∧ addThirty 23 45 = "24:15" := by
  refine ⟨?_, by decide, by decide⟩
  intro rs sk r h m hr hnd hsplit
  have hshift : shiftTime? r.scheduled = some (addThirty h m) := by
    rw [shiftTime?, hsplit]
    rfl
  constructor
  · exact countP_run_adaptive_learning sk r rs hr hnd (by rw [hshift]; rfl)
  · intro s hs hsid
    obtain ⟨r', hr', hid, _, hst⟩ := mem_run_adaptive_learning hs
    have : r' = r := by
      refine List.inj_on_of_nodup_map hnd hr' hr ?_
      rw [← hid, hsid]
    subst this
    rw [hshift] at hst
    exact (Option.some_inj.mp hst).symm

/-- C1 witness: a reminder at "08:45" with 3 skips yields exactly one
suggestion whose time is "09:15"; with 2 skips it yields none. -/
theorem run_adaptive_learning_spec_witness :
    ((run_adaptive_learning [⟨5, "💊 Medicine: X", "08:45"⟩] (fun _ => 3)).countP
        (fun s => s.reminder_id == (5 : Int)) = 1)
    ∧ ((run_adaptive_learning [⟨5, "💊 Medicine: X", "08:45"⟩] (fun _ => 2)).countP
        (fun s => s.reminder_id == (5 : Int)) = 0) := by
  constructor
  · have h := (run_adaptive_learning_spec.1 [⟨5, "💊 Medicine: X", "08:45"⟩]
      (fun _ => 3) ⟨5, "💊 Medicine: X", "08:45"⟩ 8 45
      (by decide) (by decide) (by decide)).1
    simpa using h
  · have h := (run_adaptive_learning_spec.1 [⟨5, "💊 Medicine: X", "08:45"⟩]
      (fun _ => 2) ⟨5, "💊 Medicine: X", "08:45"⟩ 8 45
      (by decide) (by decide) (by decide)).1
    simpa using h

/-! ### C3: rounding bounds and the score formula -/

theorem roundHalfEven_ge_floor (q : Rat) : ⌊q⌋ ≤ roundHalfEven q := by
  rw [roundHalfEven]
  split_ifs <;> omega

theorem le_roundHalfEven {n : Int} {q : Rat} (h : (n : Rat) ≤ q) :
    n ≤ roundHalfEven q :=
  le_trans (Int.le_floor.mpr h) (roundHalfEven_ge_floor q)

theorem roundHalfEven_le {n : Int} {q : Rat} (h : q ≤ (n : Rat)) :
    roundHalfEven q ≤ n := by
  have hfl : ⌊q⌋ ≤ n := by
    have := Int.floor_le_floor h
    rwa [Int.floor_intCast] at this
  have hflq : (⌊q⌋ : Rat) ≤ q := Int.floor_le q
  rw [roundHalfEven]
  split_ifs with h1 h2 h3
  · exact hfl
  · have hlt : (⌊q⌋ : Rat) < (n : Rat) := by linarith
    have : ⌊q⌋ < n := by exact_mod_cast hlt
    omega
  · exact hfl
  · have h4 : q - ⌊q⌋ = 1/2 := le_antisymm (not_lt.mp h2) (not_lt.mp h1)
    have hlt : (⌊q⌋ : Rat) < (n : Rat) := by linarith
    have : ⌊q⌋ < n := by exact_mod_cast hlt
    omega

theorem pyRound1_le {q : Rat} {n : Int} (h : q ≤ (n : Rat)) : pyRound1 q ≤ (n : Rat) := by
  rw [pyRound1]
  have h1 : roundHalfEven (q * 10) ≤ 10 * n := by
    refine roundHalfEven_le ?_
    push_cast
    linarith
  rw [div_le_iff₀ (by norm_num : (0:Rat) < 10)]
  calc (roundHalfEven (q * 10) : Rat) ≤ ((10 * n : Int) : Rat) := by exact_mod_cast h1
    _ = (n : Rat) * 10 := by push_cast; ring

theorem pyRound1_nonneg {q : Rat} (h : 0 ≤ q) : 0 ≤ pyRound1 q := by
  rw [pyRound1]
  have h1 : (0 : Int) ≤ roundHalfEven (q * 10) := le_roundHalfEven (by push_cast; linarith)
  have h2 : (0 : Rat) ≤ (roundHalfEven (q * 10) : Rat) := by exact_mod_cast h1
  positivity

/-- Compliance component as the spec states it (completed / total × 100,
without the code's `max(total, 1)` guard). -/
def spec_compliance_pct (logs : List LogRow) (reminders : List RemRow) : Rat :=
  (completedCount logs : Rat) / (reminders.length : Rat) * 100

/-- Hydration component as the spec states it. -/
def spec_hydration_pct (hydration : Int) : Rat := min ((hydration : Rat) / 8 * 100) 100

/-- Medicine component as the spec states it (100 when there are no
medicine reminders). -/
def spec_medicine_pct (logs : List LogRow) (reminders : List RemRow) : Rat :=
  if medTotal reminders = 0 then 100
  else (medCompleted logs : Rat) / (medTotal reminders : Rat) * 100

/-- The grade ladder, characterised by its thresholds. -/
theorem codeGrade_iff (s : Rat) :
    (codeGrade s = "Excellent 🌟" ↔ 80 ≤ s)
    ∧ (codeGrade s = "Good 👍" ↔ 60 ≤ s ∧ s < 80)
    ∧ (codeGrade s = "Needs Improvement ⚠️" ↔ 40 ≤ s ∧ s < 60)
    ∧ (codeGrade s = "Risk Alert 🚨" ↔ s < 40) := by
  rw [codeGrade]
  by_cases h80 : 80 ≤ s <;> by_cases h60 : 60 ≤ s <;> by_cases h40 : 40 ≤ s <;>
    simp [h80, h60, h40] <;> linarith

/-- C3 (amended): with at least one active reminder the scorer returns
`round(min(100, 0.4·compliance% + 0.2·hydration% + 0.4·medicine%), 1)`; the
score never exceeds 100, and is nonnegative whenever today's stored
hydration glass count is nonnegative (a negative stored count can push it
below 0); the grade follows the thresholds ≥80 Excellent, ≥60 Good,
≥40 Needs Improvement, else Risk Alert (each label carrying its emoji
suffix). -/
theorem calculate_health_score_spec :
    ∀ (logs : List LogRow) (reminders : List RemRow) (hydration : Int),
      reminders ≠ [] →
      ((calculate_health_score logs reminders hydration).1.score
          = pyRound1 (min 100
              ((4/10) * spec_compliance_pct logs reminders
                + (2/10) * spec_hydration_pct hydration
                + (4/10) * spec_medicine_pct logs reminders)))
      ∧ (calculate_health_score logs reminders hydration).1.score ≤ 100
      ∧ (0 ≤ hydration → 0 ≤ (calculate_health_score logs reminders hydration).1.score)
      ∧ ((calculate_health_score logs reminders hydration).1.grade = "Excellent 🌟"
          ↔ 80 ≤ (calculate_health_score logs reminders hydration).1.score)
      ∧ ((calculate_health_score logs reminders hydration).1.grade = "Good 👍"
          ↔ 60 ≤ (calculate_health_score logs reminders hydration).1.score
            ∧ (calculate_health_score logs reminders hydration).1.score < 80)
      ∧ ((calculate_health_score logs reminders hydration).1.grade = "Needs Improvement ⚠️"
          ↔ 40 ≤ (calculate_health_score logs reminders hydration).1.score
            ∧ (calculate_health_score logs reminders hydration).1.score < 60)
      ∧ ((calculate_health_score logs reminders hydration).1.grade = "Risk Alert 🚨"
          ↔ (calculate_health_score logs reminders hydration).1.score < 40) := by
  intro logs reminders hydration hne
  have htot : reminders.length ≠ 0 := by
    simpa [List.length_eq_zero] using hne
  have hres : (calculate_health_score logs reminders hydration).1.score
      = codeScore logs reminders hydration := by
    rw [calculate_health_score, if_neg htot]
  have hgrade : (calculate_health_score logs reminders hydration).1.grade
      = codeGrade (codeScore logs reminders hydration) := by
    rw [calculate_health_score, if_neg htot]
  have hmax : (max reminders.length 1 : Nat) = reminders.length := by omega
  have hcomp : compliancePct logs reminders = spec_compliance_pct logs reminders := by
    rw [compliancePct, spec_compliance_pct, hmax]
  have hmed : medScore logs reminders = spec_medicine_pct logs reminders := by
    rw [medScore, spec_medicine_pct]
    by_cases hmt : medTotal reminders = 0
    · simp [hmt]
    · have hpos : 0 < medTotal reminders := Nat.pos_of_ne_zero hmt
      have hmaxm : (max (medTotal reminders) 1 : Nat) = medTotal reminders := by omega
      rw [if_pos hpos, if_neg hmt, hmaxm]
  have hform : codeScore logs reminders hydration
      = pyRound1 (min 100
          ((4/10) * spec_compliance_pct logs reminders
            + (2/10) * spec_hydration_pct hydration
            + (4/10) * spec_medicine_pct logs reminders)) := by
    rw [codeScore, hcomp, hmed]
    have : hydrationScore hydration = spec_hydration_pct hydration := rfl
    rw [this, min_comm]
    ring_nf
  have hle : codeScore logs reminders hydration ≤ 100 := by
    have h1 : min (compliancePct logs reminders * (4/10)
        + hydrationScore hydration * (2/10) + medScore logs reminders * (4/10)) 100
        ≤ ((100 : Int) : Rat) := by
      push_cast
      exact min_le_right _ _
    simpa using pyRound1_le h1
  have hnonneg : 0 ≤ hydration → 0 ≤ codeScore logs reminders hydration := by
    intro hh
    have hc : 0 ≤ compliancePct logs reminders := by
      rw [compliancePct]
      positivity
    have hhyd : 0 ≤ hydrationScore hydration := by
      rw [hydrationScore]
      refine le_min ?_ (by norm_num)
      have : (0 : Rat) ≤ (hydration : Rat) := by exact_mod_cast hh
      positivity
    have hm : 0 ≤ medScore logs reminders := by
      rw [medScore]
      split
      · positivity
      · norm_num
    refine pyRound1_nonneg (le_min ?_ (by norm_num))
    positivity
  rw [hres, hgrade]
  exact ⟨hform, hle, hnonneg, (codeGrade_iff _).1, (codeGrade_iff _).2.1,
    (codeGrade_iff _).2.2.1, (codeGrade_iff _).2.2.2⟩

/-- C3 counterexample: with one non-medicine reminder, no logs, and a stored
hydration count of −1000 glasses (the hydration store accepts any integer
increment), the returned score is −2460, outside the claimed range
[0, 100]. -/
theorem calculate_health_score_negative :
    (calculate_health_score [] [⟨"wake"⟩] (-1000)).1.score = -2460
    ∧ ¬ (0 ≤ (calculate_health_score [] [⟨"wake"⟩] (-1000)).1.score) := by
  have h : (calculate_health_score [] [⟨"wake"⟩] (-1000)).1.score = -2460 := by
    simp [calculate_health_score, codeScore, compliancePct, hydrationScore, medScore,
      medTotal, medCompleted, completedCount, pyRound1, roundHalfEven]
    norm_num [Int.fract]
  exact ⟨h, by rw [h]; norm_num⟩

/-- C3 witness: one reminder completed with 8 glasses logged scores within
bounds. -/
theorem calculate_health_score_spec_witness :
    (calculate_health_score [⟨"wake", "completed"⟩] [⟨"wake"⟩] 8).1.score ≤ 100
    ∧ 0 ≤ (calculate_health_score [⟨"wake", "completed"⟩] [⟨"wake"⟩] 8).1.score
    ∧ ((calculate_health_score [⟨"wake", "completed"⟩] [⟨"wake"⟩] 8).1.grade
        = "Excellent 🌟"
        ↔ 80 ≤ (calculate_health_score [⟨"wake", "completed"⟩] [⟨"wake"⟩] 8).1.score) :=
  ⟨(calculate_health_score_spec [⟨"wake", "completed"⟩] [⟨"wake"⟩] 8 (by decide)).2.1,
   (calculate_health_score_spec [⟨"wake", "completed"⟩] [⟨"wake"⟩] 8 (by decide)).2.2.1
     (by norm_num),
   (calculate_health_score_spec [⟨"wake", "completed"⟩] [⟨"wake"⟩] 8 (by decide)).2.2.2.1⟩

/-- C2: the reminder list returned by schedule synthesis is sorted ascending
by the scheduled-time string under code-point lexicographic comparison, its
(scheduled time, kind) pairs are pairwise distinct, and for each key exactly
the first occurrence of the sorted emitted schedule is kept. -/
theorem generate_schedule_sorted_dedup :
    ∀ (u : UserRow) (meds : List MedRow) (out : List Event),
      generate_schedule (some u) meds = some out →
      out.Pairwise (fun a b => strLe a.scheduled b.scheduled = true)
      ∧ out.Pairwise (fun a b => evKey a ≠ evKey b)
      ∧ (∀ wh wm sh sm, parseClock? (wakeStr u) = some (wh, wm) →
          parseClock? (sleepStr u) = some (sh, sm) →
          ∀ k, out.filter (fun e => evKey e == k)
              = ((sortedSchedule u meds wh wm sh sm).find?
                  (fun e => evKey e == k)).toList) := by
  intro u meds out hgen
  obtain ⟨wh, wm, sh, sm, hw, hs, hout⟩ := generate_schedule_some hgen
  subst hout
  refine ⟨?_, dedupFirst_pairwise_key _ _, ?_⟩
  · exact List.Pairwise.sublist (dedupFirst_sublist _ _)
      (sortedSchedule_pairwise u meds wh wm sh sm)
  · intro wh' wm' sh' sm' hw' hs' k
    rw [hw] at hw'
    rw [hs] at hs'
    obtain ⟨rfl, rfl⟩ := Prod.mk.injEq .. |>.mp (Option.some_inj.mp hw')
    obtain ⟨rfl, rfl⟩ := Prod.mk.injEq .. |>.mp (Option.some_inj.mp hs')
    exact dedupFirst_filter_eq k _ [] (by simp)

/-- C9: the synthesized schedule contains a sleep event, and every sleep
event in it is scheduled at the profile's sleep time minus 30 minutes where
a minute below 30 clamps to minute 0 without borrowing an hour. -/
theorem generate_schedule_sleep :
    ∀ (u : UserRow) (meds : List MedRow) (out : List Event) (wh wm sh sm : Nat),
      generate_schedule (some u) meds = some out →
      parseClock? (wakeStr u) = some (wh, wm) →
      parseClock? (sleepStr u) = some (sh, sm) →
      (∃ e ∈ out, e.type = "sleep")
      ∧ (∀ e ∈ out, e.type = "sleep" →
          e.scheduled = fmt2 sh ++ ":" ++ fmt2 (if sm < 30 then 0 else sm - 30)) := by
  intro u meds out wh wm sh sm hgen hw hs
  obtain ⟨wh', wm', sh', sm', hw', hs', hout⟩ := generate_schedule_some hgen
  rw [hw] at hw'
  rw [hs] at hs'
  obtain ⟨rfl, rfl⟩ := Prod.mk.injEq .. |>.mp (Option.some_inj.mp hw')
  obtain ⟨rfl, rfl⟩ := Prod.mk.injEq .. |>.mp (Option.some_inj.mp hs')
  subst hout
  have hmax : Int.toNat (max 0 ((sm : Int) - 30)) = if sm < 30 then 0 else sm - 30 := by
    split_ifs with h <;> omega
  constructor
  · obtain ⟨e, he, hk⟩ := exists_key_in_out (scheduleEvents_sleep_mem u meds wh wm sh sm)
    exact ⟨e, he, congrArg Prod.snd hk⟩
  · intro e he ht
    have hsched := scheduleEvents_sleep_sched (mem_schedule_of_mem_out he) ht
    rw [hsched, hmax]

/-- C10: every age group's hydration target is at least 7, so the
`min(target, 7)` truncation always keeps the whole ladder: for every profile
the output contains a water reminder at each of the seven ladder times, and
the number of water reminders is exactly 7 regardless of age. -/
theorem generate_schedule_water :
    (∀ age : Int, min (hydrationFor (get_age_group age)) 7 = 7)
    ∧ ∀ (u : UserRow) (meds : List MedRow) (out : List Event),
        generate_schedule (some u) meds = some out →
        (∀ t ∈ hydration_times, ∃ e ∈ out, e.type = "water" ∧ e.scheduled = t)
        ∧ (out.filter (fun e => e.type == "water")).length = 7 := by
  refine ⟨min_hydration_eq_seven, ?_⟩
  intro u meds out hgen
  obtain ⟨wh, wm, sh, sm, hw, hs, hout⟩ := generate_schedule_some hgen
  subst hout
  have hex : ∀ t ∈ hydration_times,
      ∃ e ∈ dedupFirst (sortedSchedule u meds wh wm sh sm) [],
        e.type = "water" ∧ e.scheduled = t := by
    intro t ht
    obtain ⟨e, he, hk⟩ := exists_key_in_out (scheduleEvents_water_mem u meds wh wm sh sm ht)
    exact ⟨e, he, congrArg Prod.snd hk, congrArg Prod.fst hk⟩
  refine ⟨hex, ?_⟩
  have hsub1 : ((dedupFirst (sortedSchedule u meds wh wm sh sm) []).filter
      (fun e => e.type == "water")).map Event.scheduled ⊆ hydration_times := by
    intro x hx
    obtain ⟨e, he, rfl⟩ := List.mem_map.mp hx
    obtain ⟨hmem, hty⟩ := List.mem_filter.mp he
    exact scheduleEvents_water_sched (mem_schedule_of_mem_out hmem) (beq_iff_eq.mp hty)
  have hsub2 : hydration_times ⊆ ((dedupFirst (sortedSchedule u meds wh wm sh sm) []).filter
      (fun e => e.type == "water")).map Event.scheduled := by
    intro t ht
    obtain ⟨e, he, hty, hsc⟩ := hex t ht
    refine List.mem_map.mpr ⟨e, List.mem_filter.mpr ⟨he, beq_iff_eq.mpr hty⟩, hsc⟩
  have hpair : ((dedupFirst (sortedSchedule u meds wh wm sh sm) []).filter
      (fun e => e.type == "water")).Pairwise (fun a b => a.scheduled ≠ b.scheduled) := by
    have hkeys : ((dedupFirst (sortedSchedule u meds wh wm sh sm) []).filter
        (fun e => e.type == "water")).Pairwise (fun a b => evKey a ≠ evKey b) :=
      List.Pairwise.sublist (List.filter_sublist _) (dedupFirst_pairwise_key _ _)
    refine List.Pairwise.imp_of_mem ?_ hkeys
    intro a b ha hb hk hsc
    have hta : a.type = "water" := beq_iff_eq.mp (List.mem_filter.mp ha).2
    have htb : b.type = "water" := beq_iff_eq.mp (List.mem_filter.mp hb).2
    exact hk (by rw [evKey, evKey, hsc, hta, htb])
  have hnd1 : (((dedupFirst (sortedSchedule u meds wh wm sh sm) []).filter
      (fun e => e.type == "water")).map Event.scheduled).Nodup :=
    List.pairwise_map.mpr hpair
  have hnd2 : hydration_times.Nodup := by decide
  have hlen1 := (List.subperm_of_subset hnd1 hsub1).length_le
  have hlen2 := (List.subperm_of_subset hnd2 hsub2).length_le
  rw [List.length_map] at hlen1 hlen2
  have h7 : hydration_times.length = 7 := rfl
  omega

/-- C2 witness: a concrete profile's generated schedule is sorted with
pairwise-distinct (scheduled, kind) keys. -/
theorem generate_schedule_sorted_dedup_witness :
    (dedupFirst (sortedSchedule ⟨1, "A", 40, "F", "", "", "", "en", ""⟩ [] 6 30 22 0)
        []).Pairwise (fun a b => strLe a.scheduled b.scheduled = true)
    ∧ (dedupFirst (sortedSchedule ⟨1, "A", 40, "F", "", "", "", "en", ""⟩ [] 6 30 22 0)
        []).Pairwise (fun a b => evKey a ≠ evKey b) :=
  ⟨(generate_schedule_sorted_dedup ⟨1, "A", 40, "F", "", "", "", "en", ""⟩ []
      (dedupFirst (sortedSchedule ⟨1, "A", 40, "F", "", "", "", "en", ""⟩ [] 6 30 22 0) [])
      rfl).1,
   (generate_schedule_sorted_dedup ⟨1, "A", 40, "F", "", "", "", "en", ""⟩ []
      (dedupFirst (sortedSchedule ⟨1, "A", 40, "F", "", "", "", "en", ""⟩ [] 6 30 22 0) [])
      rfl).2.1⟩

/-- C9 witness: for a profile sleeping at "22:15" the schedule has a sleep
event and every sleep event sits at "22:00" (minute clamped to 0, hour
unchanged). -/
theorem generate_schedule_sleep_witness :
    (∃ e ∈ dedupFirst
        (sortedSchedule ⟨1, "A", 40, "F", "", "06:30", "22:15", "en", ""⟩ [] 6 30 22 15) [],
      e.type = "sleep")
    ∧ (∀ e ∈ dedupFirst
        (sortedSchedule ⟨1, "A", 40, "F", "", "06:30", "22:15", "en", ""⟩ [] 6 30 22 15) [],
        e.type = "sleep" →
        e.scheduled = fmt2 22 ++ ":" ++ fmt2 (if 15 < 30 then 0 else 15 - 30)) :=
  generate_schedule_sleep ⟨1, "A", 40, "F", "", "06:30", "22:15", "en", ""⟩ []
    (dedupFirst (sortedSchedule ⟨1, "A", 40, "F", "", "06:30", "22:15", "en", ""⟩ [] 6 30 22 15) [])
    6 30 22 15 rfl rfl rfl

/-- C10 witness: a senior profile (hydration target 7) still gets all seven
water reminders. -/
theorem generate_schedule_water_witness :
    (∀ t ∈ hydration_times,
      ∃ e ∈ dedupFirst
          (sortedSchedule ⟨1, "A", 70, "F", "", "", "", "en", ""⟩ [] 6 30 22 0) [],
        e.type = "water" ∧ e.scheduled = t)
    ∧ ((dedupFirst (sortedSchedule ⟨1, "A", 70, "F", "", "", "", "en", ""⟩ [] 6 30 22 0)
        []).filter (fun e => e.type == "water")).length = 7 :=
  generate_schedule_water.2 ⟨1, "A", 70, "F", "", "", "", "en", ""⟩ []
    (dedupFirst (sortedSchedule ⟨1, "A", 70, "F", "", "", "", "en", ""⟩ [] 6 30 22 0) [])
    rfl

/-- C4 counterexample: a text that contains the sample line but is followed
by a later duration-only line ("99 days") still yields exactly one
candidate for that line, but its duration is overwritten to 99, not 30 —
the claim fails for such containing texts. -/
theorem parse_prescription_text_overwrite :
    parse_prescription_text
        "Metformin 500mg - Twice daily (morning, evening) x 30 days\n99 days" =
      [{ name := "Metformin", dosage := "500mg", times := ["08:00", "20:00"],
         duration := 99 }]
    ∧ (99 : Int) ≠ 30 := by
  constructor
  · decide
  · decide

/-- C4 (amended): for the input text consisting of exactly the line
"Metformin 500mg - Twice daily (morning, evening) x 30 days", the parser
produces exactly one candidate with name "Metformin", dosage "500mg", time
slots ["08:00", "20:00"] (the last matching timing keyword in iteration
order, "twice", deciding the slots over the earlier "morning" and
"evening" matches), and duration 30. -/
theorem parse_prescription_text_sample :
    parse_prescription_text
        "Metformin 500mg - Twice daily (morning, evening) x 30 days" =
      [{ name := "Metformin", dosage := "500mg", times := ["08:00", "20:00"],
         duration := 30 }] := by
  decide
